/-
Verification of the market-data distribution engine in backend/app.py
(rushout09/trading-app).

The engine is shallowly embedded in Lean 4:
* prices and quantities are exact rationals (ℚ);
* Python `None`-able values are `Option ℚ` / `Option String`;
* Python dictionaries keyed by instrument token are association lists
  (`List (ℕ × _)`) queried with `List.lookup`, which matches dictionary
  lookup observationally (a new assignment shadows the previous binding);
* wall-clock instants (`datetime.now()`, `fetched_at`) are rationals
  counting seconds, so `timedelta(days=1)` is the constant 86400;
* a Python function that can raise is embedded as returning
  `Except String _`, paired with the (mutated) manager state;
* the Kite broker (`kite.instruments`, `kite.quote`,
  `kite.historical_data` and the symbol → token directory built from it)
  is an external collaborator, modelled as an oracle record `Broker`
  whose fields describe what each remote call would return.
-/
import Mathlib

set_option autoImplicit false

namespace TradingApp

/-! ## Rounding

Python's `round(x, 2)` rounds to 2 decimal digits using round-half-to-even
(banker's rounding).  `pyRound` is that rule on an exact rational. -/

/-- Round a rational to the nearest integer, ties going to the even
integer, as Python's builtin `round` does. -/
def pyRound (q : ℚ) : ℤ :=
  let f : ℤ := ⌊q⌋
  let r : ℚ := q - f
  if r < 1/2 then f
  else if 1/2 < r then f + 1
  else if f % 2 = 0 then f else f + 1

/-- Python `round(q, 2)`: round to two decimal places. -/
def round2 (q : ℚ) : ℚ := (pyRound (q * 100) : ℚ) / 100

/-! ## Data model -/

/-- A tick as stored in `KiteManager.latest_ticks`: the fields of the
Kite tick dictionary that `_format_stock_data` reads.  A key absent from
the dictionary is `none`; `emptyTick` is the empty dictionary `{}`. -/
structure Tick where
  last_price : Option ℚ
  ohlc_open : Option ℚ
  ohlc_high : Option ℚ
  ohlc_low : Option ℚ
  ohlc_close : Option ℚ
  total_buy_quantity : Option ℚ
  total_sell_quantity : Option ℚ
  volume_traded : Option ℚ
  change : Option ℚ
  last_trade_time : Option String
  deriving DecidableEq

/-- The empty tick dictionary `{}` (every `.get` returns `None`). -/
def emptyTick : Tick := ⟨none, none, none, none, none, none, none, none, none, none⟩

/-- Result shape of `fetch_52_week_data`: `{"high": _, "low": _}`. -/
structure Range52 where
  high : Option ℚ
  low : Option ℚ
  deriving DecidableEq

/-- The dictionary returned by `KiteManager._format_stock_data`. -/
structure StockData where
  symbol : String
  exchange : String
  token : ℕ
  cmp : Option ℚ
  w52_high : Option ℚ
  w52_low : Option ℚ
  dfl : Option ℚ
  dfh : Option ℚ
  day_low : Option ℚ
  day_high : Option ℚ
  dfdl : Option ℚ
  dfdh : Option ℚ
  buyers : Option ℚ
  sellers : Option ℚ
  bsr : Option ℚ
  change : Option ℚ
  volume : Option ℚ
  last_trade_time : Option String
  deriving DecidableEq

/-- Python truthiness of an optional number: `None` and `0` are falsy. -/
def truthy : Option ℚ → Bool
  | none => false
  | some q => q != 0

/-! ## Metrics Engine (`KiteManager._format_stock_data`)

The raw (un-rounded) derived values, exactly as assigned on the lines
`dfl = ((cmp - w52_low) / cmp) * 100` etc. of `_format_stock_data`. -/

/-- Distance from 52-week low before rounding: `((cmp - w52_low) / cmp) * 100`. -/
def dflRaw (c l : ℚ) : ℚ := ((c - l) / c) * 100

/-- Distance from 52-week high before rounding: `((w52_high - cmp) / cmp) * 100`. -/
def dfhRaw (c h : ℚ) : ℚ := ((h - c) / c) * 100

/-- Distance from day high before rounding: `((day_high - cmp) / cmp) * 100`. -/
def dfdhRaw (c dh : ℚ) : ℚ := ((dh - c) / c) * 100

/-- Distance from day low before rounding: `((cmp - day_low) / day_low) * 100`.
The denominator is `day_low`, unlike the other three distances. -/
def dfdlRaw (c dl : ℚ) : ℚ := ((c - dl) / dl) * 100

/-- Buy-sell ratio before rounding: `buyers / sellers`. -/
def bsrRaw (bq sq : ℚ) : ℚ := bq / sq

/-- Model of `KiteManager._format_stock_data`.  Guards mirror the Python source:
`if cmp and cmp > 0` is `c ≠ 0 ∧ 0 < c` on the present value (Python
truthiness plus the comparison), `w52_low is not None` is presence of the
value, `if day_low and day_low > 0 and cmp` demands `day_low` present,
nonzero and positive and `cmp` present and nonzero, and
`if sellers and sellers > 0 and buyers is not None` demands `sellers`
present, nonzero and positive and `buyers` present.  Each defined derived
value is rounded with `round(_, 2)` at the return site. -/
def formatStockData (exchange symbol : String) (token : ℕ)
    (tick : Tick) (week_52 : Range52) : StockData where
  symbol := symbol
  exchange := exchange
  token := token
  cmp := tick.last_price
  w52_high := week_52.high
  w52_low := week_52.low
  dfl := (match tick.last_price, week_52.low with
    | some c, some l => if c ≠ 0 ∧ 0 < c then some (dflRaw c l) else none
    | _, _ => none).map round2
  dfh := (match tick.last_price, week_52.high with
    | some c, some h => if c ≠ 0 ∧ 0 < c then some (dfhRaw c h) else none
    | _, _ => none).map round2
  day_low := tick.ohlc_low
  day_high := tick.ohlc_high
  dfdl := (match tick.last_price, tick.ohlc_low with
    | some c, some dl => if dl ≠ 0 ∧ 0 < dl ∧ c ≠ 0 then some (dfdlRaw c dl) else none
    | _, _ => none).map round2
  dfdh := (match tick.last_price, tick.ohlc_high with
    | some c, some dh => if c ≠ 0 ∧ 0 < c then some (dfdhRaw c dh) else none
    | _, _ => none).map round2
  buyers := tick.total_buy_quantity
  sellers := tick.total_sell_quantity
  bsr := (match tick.total_buy_quantity, tick.total_sell_quantity with
    | some bq, some sq => if sq ≠ 0 ∧ 0 < sq then some (bsrRaw bq sq) else none
    | _, _ => none).map round2
  change := tick.change
  volume := tick.volume_traded
  last_trade_time := match tick.last_trade_time with
    | some t => if t ≠ "" then some t else none
    | none => none

/-- The tick of the end-to-end scenario: `last_price=100`, `day_high=110`,
`day_low=95`, `buy_qty=500`, `sell_qty=250`. -/
def scenarioTick : Tick :=
  ⟨some 100, none, some 110, some 95, none, some 500, some 250, none, none, none⟩

/-! ## Authentication-failure detection (`_handle_auth_error`, `logout`) -/

/-- Test whether `needle` occurs as a contiguous substring of `hay` (Python `in` on
strings, used as `"..." in msg`). -/
def strContains (hay needle : List Char) : Bool :=
  (List.range (hay.length + 1)).any (fun i => needle.isPrefixOf (hay.drop i))

/-- The invalid-credential signature test of `_handle_auth_error`:
the error message contains the literal Kite string or `TokenException`. -/
def matchesAuthSig (msg : String) : Bool :=
  strContains msg.toList "Incorrect `api_key` or `access_token`".toList ||
  strContains msg.toList "TokenException".toList

/-- An entry of the module-level `week_52_cache`:
`{token: {"high": x, "low": y, "fetched_at": t}}`.  Entries are only ever
stored with concrete numbers, so the fields are plain rationals. -/
structure W52Entry where
  high : ℚ
  low : ℚ
  fetched_at : ℚ
  deriving DecidableEq

/-- Mutable state of `KiteManager` together with the module-level caches
it clears on logout.  `kite` and `ticker` record whether `self.kite` /
`self.ticker` are non-`None`; the instrument directory itself lives in the
`Broker` oracle. -/
structure KiteState where
  access_token : Option String
  kite : Bool
  ticker : Bool
  is_connected : Bool
  subscribed_tokens : Finset ℕ
  latest_ticks : List (ℕ × Tick)
  token_to_symbol : List (ℕ × String)
  week_52_cache : List (ℕ × W52Entry)
  deriving DecidableEq

/-- Model of `KiteManager.logout`: close and drop the ticker, clear the token and
kite client, mark disconnected, and clear every cache and the
subscription set. -/
def logout (_s : KiteState) : KiteState :=
  ⟨none, false, false, false, ∅, [], [], []⟩

/-- Model of `KiteManager.is_authenticated`. -/
def isAuthenticated (s : KiteState) : Bool :=
  s.kite && s.access_token.isSome

/-- Model of `KiteManager._handle_auth_error`: on a matching error message, log
out and raise `ValueError` (the `Bool` records whether it raised);
otherwise return unchanged. -/
def handleAuthError (s : KiteState) (msg : String) : KiteState × Bool :=
  if matchesAuthSig msg then (logout s, true) else (s, false)

/-! ## Subscription Reconciler (`_resubscribe_all`, `update_subscriptions`) -/

/-- Outcome of one `_resubscribe_all` pass, given the desired token set
already resolved from the watchlists.  `unsubIssued`/`subIssued` record
whether `ticker.unsubscribe` / `ticker.subscribe` were called;
`unsubOk`/`subOk` say whether those calls succeeded (a failure is caught
and logged).  `newCurrent` is `self.subscribed_tokens` afterwards: the
source updates it only after a successful subscribe, and never shrinks it
after an unsubscribe. -/
structure ReconResult where
  toRemove : Finset ℕ
  toAdd : Finset ℕ
  unsubIssued : Bool
  subIssued : Bool
  newCurrent : Finset ℕ
  deriving DecidableEq

/-- The reconciliation core of `KiteManager._resubscribe_all` (the part
after the desired token set has been collected from the watchlists).
`if tokens_to_subscribe:` guards the whole delta computation, so an empty
desired set issues nothing and changes nothing. -/
def resubscribeAll (desired current : Finset ℕ) (unsubOk subOk : Bool) : ReconResult :=
  if desired = ∅ then ⟨∅, ∅, false, false, current⟩
  else
    let toRemove := current \ desired
    let toAdd := desired \ current
    ⟨toRemove, toAdd, decide (toRemove ≠ ∅), decide (toAdd ≠ ∅),
     if toAdd ≠ ∅ ∧ subOk = true then current ∪ toAdd else current⟩

/-- Model of `KiteManager.update_subscriptions`: reconcile when the ticker is
connected, otherwise (ticker present but disconnected) attempt a
reconnect; the returned `Bool` records whether `ticker.connect` was
attempted. -/
def updateSubscriptions (s : KiteState) (desired : Finset ℕ)
    (unsubOk subOk : Bool) : KiteState × Bool :=
  if s.ticker && s.is_connected then
    ({s with subscribed_tokens := (resubscribeAll desired s.subscribed_tokens unsubOk subOk).newCurrent},
     false)
  else if s.ticker && !s.is_connected then (s, true)
  else (s, false)

/-! ## Broker oracle and the 52-week cache (`fetch_52_week_data`) -/

/-- What the remote Kite API would answer: the symbol directory
(`get_instrument_token`, `None` when unresolvable, `.error` when loading
the exchange's instrument dump raises), the on-demand quote fallback
(already converted to tick shape; `.ok none` when the quote is missing
the requested key), and `kite.historical_data` as the list of daily
`(high, low)` candles. -/
structure Broker where
  tokenOf : String → String → Except String (Option ℕ)
  quoteOf : String → String → Except String (Option Tick)
  histData : ℕ → Except String (List (ℚ × ℚ))

/-- The cache-miss path of `fetch_52_week_data`: without a kite client
return `{"high": None, "low": None}`; otherwise call `historical_data`.
An exception goes through `_handle_auth_error` (logging out and
re-raising on an auth signature) and otherwise yields the empty range; an
empty candle list yields the empty range without caching; otherwise the
max-high/min-low pair is cached with `fetched_at = now` and returned.
The final `Bool` records whether `historical_data` was called. -/
def fetch52Fresh (b : Broker) (now : ℚ) (s : KiteState) (tok : ℕ) :
    KiteState × Except String Range52 × Bool :=
  if s.kite = false then (s, .ok ⟨none, none⟩, false)
  else
    match b.histData tok with
    | .error msg =>
      if matchesAuthSig msg then (logout s, .error "Not authenticated", true)
      else (s, .ok ⟨none, none⟩, true)
    | .ok [] => (s, .ok ⟨none, none⟩, true)
    | .ok (bar :: bars) =>
      let h := (bars.map Prod.fst).foldl max bar.1
      let l := (bars.map Prod.snd).foldl min bar.2
      ({s with week_52_cache := (tok, ⟨h, l, now⟩) :: s.week_52_cache},
       .ok ⟨some h, some l⟩, true)

/-- Model of `KiteManager.fetch_52_week_data`: a cached entry younger than one day
(86400 seconds) is returned verbatim without any remote call; otherwise
fall through to `fetch52Fresh`. -/
def fetch52 (b : Broker) (now : ℚ) (s : KiteState) (tok : ℕ) :
    KiteState × Except String Range52 × Bool :=
  match s.week_52_cache.lookup tok with
  | some e =>
    if now - e.fetched_at < 86400 then (s, .ok ⟨some e.high, some e.low⟩, false)
    else fetch52Fresh b now s tok
  | none => fetch52Fresh b now s tok

/-! ## `KiteManager.get_stock_data` and the broadcast loop -/

/-- Tail of `get_stock_data` once 52-week data is in hand: read the
cached tick (`latest_ticks.get(token, {})`); when it is absent or has a
falsy `last_price`, fall back to the one-shot REST quote — an exception
there goes through `_handle_auth_error` and is otherwise swallowed, a
successful quote is converted and cached in `latest_ticks` — and finally
format the record. -/
def getStockDataTick (b : Broker) (s : KiteState) (ex sym : String)
    (tok : ℕ) (w52 : Range52) : KiteState × Except String (Option StockData) :=
  let tick := (s.latest_ticks.lookup tok).getD emptyTick
  if truthy tick.last_price then
    (s, .ok (some (formatStockData ex sym tok tick w52)))
  else
    match b.quoteOf ex sym with
    | .error msg =>
      if matchesAuthSig msg then (logout s, .error "Not authenticated")
      else (s, .ok (some (formatStockData ex sym tok tick w52)))
    | .ok none => (s, .ok (some (formatStockData ex sym tok tick w52)))
    | .ok (some qt) =>
      ({s with latest_ticks := (tok, qt) :: s.latest_ticks},
       .ok (some (formatStockData ex sym tok qt w52)))

/-- Middle of `get_stock_data`: fetch the 52-week range (which may raise
through `_handle_auth_error`) and continue with the tick. -/
def getStockDataTok (b : Broker) (now : ℚ) (s : KiteState) (ex sym : String)
    (tok : ℕ) : KiteState × Except String (Option StockData) :=
  match fetch52 b now s tok with
  | (s₁, .error e, _) => (s₁, .error e)
  | (s₁, .ok w52, _) => getStockDataTick b s₁ ex sym tok w52

/-- Model of `KiteManager.get_stock_data`: raise when there is no kite client,
return `None` when the symbol does not resolve to a token, otherwise
produce a formatted record. -/
def getStockData (b : Broker) (now : ℚ) (s : KiteState) (ex sym : String) :
    KiteState × Except String (Option StockData) :=
  if s.kite = false then (s, .error "Not authenticated")
  else
    match b.tokenOf ex sym with
    | .error e => (s, .error e)
    | .ok none => (s, .ok none)
    | .ok (some tok) => getStockDataTok b now s ex sym tok

/-- The per-cycle batch assembly of `broadcast_updates`: call
`get_stock_data` for every watchlist symbol, appending each truthy
result; an exception for one symbol is caught and logged and the loop
continues with the rest. -/
def buildUpdates (b : Broker) (now : ℚ) :
    KiteState → List (String × String) → KiteState × List StockData
  | s, [] => (s, [])
  | s, es :: rest =>
    match getStockData b now s es.1 es.2 with
    | (s₁, .ok (some d)) =>
      ((buildUpdates b now s₁ rest).1, d :: (buildUpdates b now s₁ rest).2)
    | (s₁, .ok none) => buildUpdates b now s₁ rest
    | (s₁, .error _) => buildUpdates b now s₁ rest

/-- One cycle of `broadcast_updates`, reduced to whether a batch is
broadcast and with which records: nothing happens unless some client is
connected and the manager is authenticated; an empty symbol union or an
empty update list broadcasts nothing. -/
def cycleBatch (b : Broker) (now : ℚ) (s : KiteState) (hasViewers : Bool)
    (syms : List (String × String)) : Option (List StockData) :=
  if hasViewers && isAuthenticated s then
    if syms.isEmpty then none
    else
      if ((buildUpdates b now s syms).2).isEmpty then none
      else some (buildUpdates b now s syms).2
  else none

/-! ## Viewer Hub (`ConnectionManager`) -/

/-- State of `ConnectionManager`: the ordered list of active frontend
connections (viewers are identified by a number) and the
`client_subscriptions` map. -/
structure ConnState where
  active : List ℕ
  subs : List (ℕ × Finset ℕ)
  deriving DecidableEq

/-- Model of `ConnectionManager.disconnect`: remove the first occurrence of the
connection from the active list and drop its subscription entry. -/
def disconnectViewer (st : ConnState) (c : ℕ) : ConnState :=
  ⟨st.active.erase c, st.subs.filter (fun p => p.1 != c)⟩

/-- Model of `ConnectionManager.broadcast`: attempt `send_json` to every active
connection in order (`sendOk` says which sends succeed; a failing send's
exception is caught), then disconnect every connection that failed.
Returns the list of connections that received the message and the new
state.  The function is total: a failing viewer never propagates an
exception to the caller. -/
def broadcastMsg (st : ConnState) (sendOk : ℕ → Bool) : List ℕ × ConnState :=
  (st.active.filter sendOk,
   (st.active.filter (fun c => !(sendOk c))).foldl disconnectViewer st)

/-! ## Helper lemmas -/

/-- A defined derived field is a multiple of 1/100: it has been rounded
to two decimal places. -/
def rounded2 (o : Option ℚ) : Prop := ∀ q, q ∈ o → (q * 100).den = 1

theorem round2_mul_100_den (q : ℚ) : (round2 q * 100).den = 1 := by
  unfold round2
  rw [div_mul_cancel₀ _ (by norm_num : (100:ℚ) ≠ 0)]
  exact Rat.den_intCast _

theorem rounded2_map (o : Option ℚ) : rounded2 (o.map round2) := by
  intro q hq
  rcases o with _ | r
  · simp at hq
  · simp only [Option.map_some', Option.mem_def, Option.some.injEq] at hq
    exact hq ▸ round2_mul_100_den r

/-! ## C10 -/

/-- C10: when the desired token set resolved from the watchlists is
empty, `_resubscribe_all` issues no unsubscribe (and no subscribe) call
and leaves `subscribed_tokens` unchanged, so previously subscribed
instruments stay subscribed. -/
theorem emptyDesiredLeavesSubscriptions (current : Finset ℕ) (unsubOk subOk : Bool) :
    resubscribeAll ∅ current unsubOk subOk = ⟨∅, ∅, false, false, current⟩ := by
  simp [resubscribeAll]

/-! ## C2 -/

/-- C2 counterexample: with desired set `{1}` and current set `{1, 2}`
and every call succeeding, the second reconciliation pass still issues an
unsubscribe call with a non-empty `to_remove` — the delta is not empty,
because `subscribed_tokens` is never shrunk after an unsubscribe. -/
theorem reconcileTwiceCounterexample :
    ((resubscribeAll {1} (resubscribeAll {1} {1, 2} true true).newCurrent true true).unsubIssued
        = true) ∧
    (resubscribeAll {1} (resubscribeAll {1} {1, 2} true true).newCurrent true true).toRemove
        ≠ ∅ := by
  decide

/-- C2 amended: running the pass twice with the same non-empty desired
set and all calls succeeding yields an empty `to_add` (no subscribe call)
on the second pass, but `to_remove` is `current \ desired` again: the
unsubscribe delta only vanishes when the initial current set was already
contained in the desired set. -/
theorem reconcileSecondPassNoSubscribe (desired current : Finset ℕ)
    (h : desired ≠ ∅) :
    (resubscribeAll desired (resubscribeAll desired current true true).newCurrent true true).toAdd
        = ∅ ∧
    (resubscribeAll desired (resubscribeAll desired current true true).newCurrent true true).subIssued
        = false ∧
    (resubscribeAll desired (resubscribeAll desired current true true).newCurrent true true).toRemove
        = current \ desired := by
  have hnew : (resubscribeAll desired current true true).newCurrent = current ∪ desired := by
    simp only [resubscribeAll, if_neg h]
    split_ifs with hadd
    · exact Finset.union_sdiff_self_eq_union
    · have hempty : desired \ current = ∅ := by
        by_contra hne
        exact hadd ⟨hne, trivial⟩
      exact (Finset.union_eq_left.mpr (Finset.sdiff_eq_empty_iff_subset.mp hempty)).symm
  have hAdd : desired \ (current ∪ desired) = ∅ :=
    Finset.sdiff_eq_empty_iff_subset.mpr Finset.subset_union_right
  have hRem : (current ∪ desired) \ desired = current \ desired := by
    ext a
    simp only [Finset.mem_sdiff, Finset.mem_union]
    tauto
  rw [hnew]
  simp only [resubscribeAll, if_neg h, hAdd, hRem]
  simp

/-- C2 witness for the amended statement, at desired `{1}`, current `∅`. -/
theorem reconcileSecondPassNoSubscribe_w :
    (resubscribeAll {1} (resubscribeAll {1} ∅ true true).newCurrent true true).toAdd = ∅ ∧
    (resubscribeAll {1} (resubscribeAll {1} ∅ true true).newCurrent true true).subIssued = false ∧
    (resubscribeAll {1} (resubscribeAll {1} ∅ true true).newCurrent true true).toRemove
        = ∅ \ {1} :=
  reconcileSecondPassNoSubscribe {1} ∅ (by decide)

/-! ## C7 -/

/-- C7: for a present positive last price and both 52-week bounds
present, the raw distance from the 52-week low is nonnegative exactly
when the price is at or above the low, and the raw distance from the
52-week high is nonnegative exactly when the high is at or above the
price. -/
theorem signCorrectness (c l h : ℚ) (hc : 0 < c) :
    (0 ≤ dflRaw c l ↔ l ≤ c) ∧ (0 ≤ dfhRaw c h ↔ c ≤ h) := by
  unfold dflRaw dfhRaw
  constructor
  · rw [div_mul_eq_mul_div, le_div_iff₀ hc, zero_mul,
      mul_nonneg_iff_of_pos_right (by norm_num : (0:ℚ) < 100), sub_nonneg]
  · rw [div_mul_eq_mul_div, le_div_iff₀ hc, zero_mul,
      mul_nonneg_iff_of_pos_right (by norm_num : (0:ℚ) < 100), sub_nonneg]

/-- C7 witness at `cmp = 100`, `low = 80`, `high = 150`. -/
theorem signCorrectness_w :
    (0 ≤ dflRaw 100 80 ↔ (80:ℚ) ≤ 100) ∧ (0 ≤ dfhRaw 100 150 ↔ (100:ℚ) ≤ 150) :=
  signCorrectness 100 80 150 (by norm_num)

/-! ## C6 -/

/-- C6: a broadcast in which exactly one viewer's send fails never
raises (the embedding is a total function), removes exactly that viewer —
leaving N − 1 active viewers — and delivers the message to every other
viewer. -/
theorem broadcastPrunesFailingViewer (st : ConnState) (sendOk : ℕ → Bool)
    (h1 : (st.active.filter (fun c => !(sendOk c))).length = 1) :
    (broadcastMsg st sendOk).2.active.length = st.active.length - 1 ∧
    (broadcastMsg st sendOk).1 = st.active.filter sendOk := by
  refine ⟨?_, rfl⟩
  obtain ⟨v, hv⟩ := List.length_eq_one.mp h1
  have hvmem : v ∈ st.active := List.mem_of_mem_filter (hv ▸ List.mem_singleton_self v)
  have h2 : (broadcastMsg st sendOk).2 = disconnectViewer st v := by
    simp only [broadcastMsg, hv, List.foldl_cons, List.foldl_nil]
  rw [h2]
  exact List.length_erase_of_mem hvmem

/-- C6 witness: three viewers, viewer 2's send fails. -/
theorem broadcastPrunesFailingViewer_w :
    (broadcastMsg ⟨[1, 2, 3], []⟩ (fun c => !(c == 2))).2.active.length
        = ([1, 2, 3] : List ℕ).length - 1 ∧
    (broadcastMsg ⟨[1, 2, 3], []⟩ (fun c => !(c == 2))).1
        = ([1, 2, 3] : List ℕ).filter (fun c => !(c == 2)) :=
  broadcastPrunesFailingViewer ⟨[1, 2, 3], []⟩ (fun c => !(c == 2)) (by decide)

/-! ## C5 -/

/-- C5: a 52-week range cached at `fetched_at` is returned verbatim with
no broker call by any lookup strictly less than 24 hours (86400 s) later;
a lookup 24 hours or more later goes back to `historical_data` when a
kite client is present, and without a client the stale cached values are
not reused (the empty range is returned). -/
theorem week52CacheFreshness (b : Broker) (now : ℚ) (s : KiteState) (tok : ℕ)
    (e : W52Entry) (hc : s.week_52_cache.lookup tok = some e) :
    (now - e.fetched_at < 86400 →
      fetch52 b now s tok = (s, .ok ⟨some e.high, some e.low⟩, false)) ∧
    (86400 ≤ now - e.fetched_at → s.kite = true →
      (fetch52 b now s tok).2.2 = true) ∧
    (86400 ≤ now - e.fetched_at → s.kite = false →
      fetch52 b now s tok = (s, .ok ⟨none, none⟩, false)) := by
  refine ⟨fun hfresh => ?_, fun hstale hk => ?_, fun hstale hk => ?_⟩
  · simp [fetch52, hc, hfresh]
  · have hlt : ¬ (now - e.fetched_at < 86400) := not_lt.mpr hstale
    simp only [fetch52, hc, if_neg hlt]
    simp only [fetch52Fresh, hk]
    rcases hb : b.histData tok with msg | bars
    · simp only [Bool.true_eq_false, if_false, hb]
      split <;> rfl
    · simp only [Bool.true_eq_false, if_false, hb]
      cases bars <;> rfl
  · have hlt : ¬ (now - e.fetched_at < 86400) := not_lt.mpr hstale
    simp [fetch52, hc, hlt, fetch52Fresh, hk]

/-- Concrete broker for the C5 witness. -/
def w52Broker : Broker :=
  ⟨fun _ _ => .ok none, fun _ _ => .ok none, fun _ => .ok [(150, 80)]⟩

/-- Concrete session state for the C5 witness: token 7 cached at time 0. -/
def w52State : KiteState :=
  ⟨some "tok", true, true, true, ∅, [], [], [(7, ⟨150, 80, 0⟩)]⟩

/-- C5 witness: at `now = 100` (fresh) the cached range comes back
verbatim with no broker call; at `now = 100000` (stale) the broker is
called again. -/
theorem week52CacheFreshness_w :
    fetch52 w52Broker 100 w52State 7 = (w52State, .ok ⟨some 150, some 80⟩, false) ∧
    (fetch52 w52Broker 100000 w52State 7).2.2 = true :=
  ⟨(week52CacheFreshness w52Broker 100 w52State 7 ⟨150, 80, 0⟩ rfl).1 (by norm_num),
   (week52CacheFreshness w52Broker 100000 w52State 7 ⟨150, 80, 0⟩ rfl).2.1 (by norm_num) rfl⟩

/-! ## C1 -/

/-- C1 counterexample: on the scenario input the code computes
`dfh = ((150 - 100) / 100) * 100 = 50.0`, not the claimed `33.33` —
the claim's expected `dfh` is false on this input (all its other expected
values are correct, see `scenarioAnalytics`). -/
theorem scenarioDfhCounterexample :
    (formatStockData "NSE" "FOO" 1 scenarioTick ⟨some 150, some 80⟩).dfh = some 50 ∧
    (50 : ℚ) ≠ 3333/100 := by
  constructor
  · norm_num [formatStockData, scenarioTick, dfhRaw, round2, pyRound]
  · norm_num

/-- C1 amended: for the scenario watchlist instrument with tick
`last_price=100, day_high=110, day_low=95, buy_qty=500, sell_qty=250` and
cached range `{high=150, low=80}`, the analytics record has `cmp=100`,
`dfl=20.0`, `dfh=50.0`, `dfdh=10.0`, `dfdl=5.26` and `bsr=2.0`. -/
theorem scenarioAnalytics :
    (formatStockData "NSE" "FOO" 1 scenarioTick ⟨some 150, some 80⟩).cmp = some 100 ∧
    (formatStockData "NSE" "FOO" 1 scenarioTick ⟨some 150, some 80⟩).dfl = some 20 ∧
    (formatStockData "NSE" "FOO" 1 scenarioTick ⟨some 150, some 80⟩).dfh = some 50 ∧
    (formatStockData "NSE" "FOO" 1 scenarioTick ⟨some 150, some 80⟩).dfdh = some 10 ∧
    (formatStockData "NSE" "FOO" 1 scenarioTick ⟨some 150, some 80⟩).dfdl = some (263/50) ∧
    (formatStockData "NSE" "FOO" 1 scenarioTick ⟨some 150, some 80⟩).bsr = some 2 := by
  refine ⟨rfl, ?_, ?_, ?_, ?_, ?_⟩ <;>
    norm_num [formatStockData, scenarioTick, dflRaw, dfhRaw, dfdhRaw, dfdlRaw, bsrRaw,
      round2, pyRound]

/-! ## C8 -/

/-- A tick with a present but zero last price and a positive day low. -/
def zeroCmpTick : Tick :=
  ⟨some 0, none, none, some 95, none, none, none, none, none, none⟩

/-- C8 counterexample: with `cmp` present but equal to `0` and
`day_low = 95 > 0`, the code emits `dfdl = None` (Python `and cmp` treats
`0` as falsy), not a numeric value as the claim asserts for `cmp = 0`. -/
theorem dfdlZeroCmpCounterexample :
    (formatStockData "NSE" "FOO" 1 zeroCmpTick ⟨none, none⟩).dfdl = none ∧
    zeroCmpTick.last_price = some 0 ∧ zeroCmpTick.ohlc_low = some 95 ∧ (0:ℚ) < 95 := by
  refine ⟨?_, rfl, rfl, by norm_num⟩
  norm_num [formatStockData, zeroCmpTick]

/-- C8 amended: `dfdl` is `(cmp - day_low) / day_low * 100` (denominator
`day_low`), and it is defined exactly when `day_low` is present and
positive and `cmp` is present and nonzero; `cmp = 0` yields the no-value
marker. -/
theorem dfdlDenominatorDayLow (ex sym : String) (tok : ℕ) (tick : Tick) (w52 : Range52) :
    ((formatStockData ex sym tok tick w52).dfdl ≠ none ↔
      ∃ c dl, tick.last_price = some c ∧ c ≠ 0 ∧ tick.ohlc_low = some dl ∧ 0 < dl) ∧
    (∀ c dl, tick.last_price = some c → c ≠ 0 → tick.ohlc_low = some dl → 0 < dl →
      (formatStockData ex sym tok tick w52).dfdl = some (round2 (((c - dl) / dl) * 100))) := by
  constructor
  · rcases hlp : tick.last_price with _ | c <;> rcases hol : tick.ohlc_low with _ | dl <;>
      simp [formatStockData, hlp, hol]
    constructor
    · rintro ⟨h1, h2, h3⟩
      exact ⟨h3, h2⟩
    · rintro ⟨h1, h2⟩
      exact ⟨ne_of_gt h2, h2, h1⟩
  · intro c dl hlp hc hol hdl
    simp [formatStockData, hlp, hol, dfdlRaw, ne_of_gt hdl, hdl, hc]

/-- C8 witness for the amended statement at `cmp = 100`, `day_low = 95`. -/
theorem dfdlDenominatorDayLow_w :
    (formatStockData "NSE" "FOO" 1 scenarioTick ⟨some 150, some 80⟩).dfdl
        = some (round2 ((((100:ℚ) - 95) / 95) * 100)) :=
  (dfdlDenominatorDayLow "NSE" "FOO" 1 scenarioTick ⟨some 150, some 80⟩).2
    100 95 rfl (by norm_num) rfl (by norm_num)

/-! ## C3 -/

/-- C3: `_format_stock_data` is total (the embedding is a function, never
an exception), every derived field it emits is either the no-value marker
or a number rounded to two decimal places, and a field whose required
inputs are absent is the marker — never zero. -/
theorem metricsNeverFail (ex sym : String) (tok : ℕ) (tick : Tick) (w52 : Range52) :
    rounded2 (formatStockData ex sym tok tick w52).dfl ∧
    rounded2 (formatStockData ex sym tok tick w52).dfh ∧
    rounded2 (formatStockData ex sym tok tick w52).dfdl ∧
    rounded2 (formatStockData ex sym tok tick w52).dfdh ∧
    rounded2 (formatStockData ex sym tok tick w52).bsr ∧
    (tick.last_price = none →
      (formatStockData ex sym tok tick w52).dfl = none ∧
      (formatStockData ex sym tok tick w52).dfh = none ∧
      (formatStockData ex sym tok tick w52).dfdl = none ∧
      (formatStockData ex sym tok tick w52).dfdh = none) ∧
    (tick.total_sell_quantity = none → (formatStockData ex sym tok tick w52).bsr = none) ∧
    (w52.low = none → (formatStockData ex sym tok tick w52).dfl = none) ∧
    (w52.high = none → (formatStockData ex sym tok tick w52).dfh = none) := by
  refine ⟨rounded2_map _, rounded2_map _, rounded2_map _, rounded2_map _, rounded2_map _,
    ?_, ?_, ?_, ?_⟩
  · intro h
    rcases hl : w52.low with _ | l <;> rcases hh : w52.high with _ | u <;>
      rcases hol : tick.ohlc_low with _ | dl <;> rcases hoh : tick.ohlc_high with _ | dh <;>
      simp [formatStockData, h, hl, hh, hol, hoh]
  · intro h
    rcases hbq : tick.total_buy_quantity with _ | bq <;> simp [formatStockData, h, hbq]
  · intro h
    rcases hlp : tick.last_price with _ | c <;> simp [formatStockData, h, hlp]
  · intro h
    rcases hlp : tick.last_price with _ | c <;> simp [formatStockData, h, hlp]

/-- C3 witness at the empty tick and empty range. -/
theorem metricsNeverFail_w :
    rounded2 (formatStockData "NSE" "FOO" 1 emptyTick ⟨none, none⟩).dfl ∧
    (formatStockData "NSE" "FOO" 1 emptyTick ⟨none, none⟩).bsr = none :=
  ⟨(metricsNeverFail "NSE" "FOO" 1 emptyTick ⟨none, none⟩).1,
   (metricsNeverFail "NSE" "FOO" 1 emptyTick ⟨none, none⟩).2.2.2.2.2.2.1 rfl⟩

/-! ## C4 -/

/-- C4: when `_handle_auth_error` sees an error matching the
invalid-credential signature it logs out and raises: afterwards the
ticker is gone (upstream connection closed), the tick cache and 52-week
cache are empty, the subscription set is cleared, the manager is
unauthenticated, `update_subscriptions` attempts no reconnect and changes
nothing while the ticker is gone, and every subsequent broadcast cycle
produces no batch until re-authentication. -/
theorem authFailureClearsSession (s : KiteState) (msg : String)
    (h : matchesAuthSig msg = true) :
    (handleAuthError s msg).1.ticker = false ∧
    (handleAuthError s msg).1.latest_ticks = [] ∧
    (handleAuthError s msg).1.week_52_cache = [] ∧
    (handleAuthError s msg).1.subscribed_tokens = ∅ ∧
    (handleAuthError s msg).1.access_token = none ∧
    isAuthenticated (handleAuthError s msg).1 = false ∧
    (handleAuthError s msg).2 = true ∧
    (∀ desired unsubOk subOk,
      updateSubscriptions (handleAuthError s msg).1 desired unsubOk subOk
        = ((handleAuthError s msg).1, false)) ∧
    (∀ b now hasViewers syms,
      cycleBatch b now (handleAuthError s msg).1 hasViewers syms = none) := by
  have h1 : handleAuthError s msg = (logout s, true) := by simp [handleAuthError, h]
  rw [h1]
  refine ⟨rfl, rfl, rfl, rfl, rfl, rfl, rfl, fun d u k => ?_, fun b now hv syms => ?_⟩
  · simp [updateSubscriptions, logout]
  · simp [cycleBatch, isAuthenticated, logout]

/-- A fully populated authenticated session state for the C4 witness. -/
def authState : KiteState :=
  ⟨some "abc", true, true, true, {5}, [(5, scenarioTick)], [(5, "NSE:FOO")],
   [(5, ⟨150, 80, 0⟩)]⟩

/-- C4 witness: a `TokenException` error on the populated state. -/
theorem authFailureClearsSession_w :
    (handleAuthError authState "TokenException").1.latest_ticks = [] ∧
    (handleAuthError authState "TokenException").1.subscribed_tokens = ∅ ∧
    isAuthenticated (handleAuthError authState "TokenException").1 = false :=
  ⟨(authFailureClearsSession authState "TokenException" (by decide)).2.1,
   (authFailureClearsSession authState "TokenException" (by decide)).2.2.2.1,
   (authFailureClearsSession authState "TokenException" (by decide)).2.2.2.2.2.1⟩

/-! ## C9 -/

theorem fetch52Fresh_benign (b : Broker) (now : ℚ) (s : KiteState) (t : ℕ)
    (hb : ∀ msg, b.histData t = .error msg → matchesAuthSig msg = false) :
    ∃ s₁ w c, fetch52Fresh b now s t = (s₁, .ok w, c) ∧
      s₁.kite = s.kite ∧ s₁.latest_ticks = s.latest_ticks := by
  unfold fetch52Fresh
  split_ifs with hk
  · exact ⟨s, ⟨none, none⟩, false, rfl, rfl, rfl⟩
  · rcases hd : b.histData t with msg | bars
    · have hm := hb msg hd
      refine ⟨s, ⟨none, none⟩, true, ?_, rfl, rfl⟩
      simp [hm]
    · rcases bars with _ | ⟨bar, bars⟩
      · exact ⟨s, ⟨none, none⟩, true, rfl, rfl, rfl⟩
      · exact ⟨_, _, true, rfl, rfl, rfl⟩

theorem fetch52_benign (b : Broker) (now : ℚ) (s : KiteState) (t : ℕ)
    (hb : ∀ msg, b.histData t = .error msg → matchesAuthSig msg = false) :
    ∃ s₁ w c, fetch52 b now s t = (s₁, .ok w, c) ∧
      s₁.kite = s.kite ∧ s₁.latest_ticks = s.latest_ticks := by
  unfold fetch52
  rcases hl : s.week_52_cache.lookup t with _ | e
  · exact fetch52Fresh_benign b now s t hb
  · obtain ⟨s₁, w, c, hfe, hk₁, hlt₁⟩ := fetch52Fresh_benign b now s t hb
    by_cases hf : now - e.fetched_at < 86400
    · exact ⟨s, ⟨some e.high, some e.low⟩, false, by simp [hf], rfl, rfl⟩
    · exact ⟨s₁, w, c, by simp [hf, hfe], hk₁, hlt₁⟩

theorem getStockData_preserves (b : Broker) (now : ℚ) (tok : ℕ)
    (hb : ∀ t msg, b.histData t = .error msg → matchesAuthSig msg = false)
    (hq : ∀ e y msg, b.quoteOf e y = .error msg → matchesAuthSig msg = false)
    (hseed : ∀ e y, b.tokenOf e y = .ok (some tok) → b.quoteOf e y = .ok none)
    (s : KiteState) (e y : String) (hk : s.kite = true)
    (hnt : s.latest_ticks.lookup tok = none) :
    (getStockData b now s e y).1.kite = true ∧
    (getStockData b now s e y).1.latest_ticks.lookup tok = none := by
  unfold getStockData
  have hkne : ¬ (s.kite = false) := by simp [hk]
  rw [if_neg hkne]
  rcases ht : b.tokenOf e y with msg | o
  · exact ⟨hk, hnt⟩
  · rcases o with _ | t'
    · exact ⟨hk, hnt⟩
    · obtain ⟨s₁, w, c, hfe, hk₁, hlt₁⟩ := fetch52_benign b now s t' (hb t')
      have hside : s₁.kite = true ∧ s₁.latest_ticks.lookup tok = none :=
        ⟨hk₁.trans hk, by rw [hlt₁]; exact hnt⟩
      have he2 : getStockDataTok b now s e y t' = getStockDataTick b s₁ e y t' w := by
        unfold getStockDataTok
        rw [hfe]
      show (getStockDataTok b now s e y t').1.kite = true ∧
        (getStockDataTok b now s e y t').1.latest_ticks.lookup tok = none
      rw [he2]
      simp only [getStockDataTick]
      split_ifs with htr
      · exact hside
      · split
        next msg heq =>
          have hm := hq e y msg heq
          rw [hm]
          exact hside
        next heq =>
          exact hside
        next qt heq =>
          have htok : t' ≠ tok := by
            intro hEq
            subst hEq
            have hq0 := hseed e y ht
            rw [hq0] at heq
            simp at heq
          refine ⟨hside.1, ?_⟩
          show ((t', qt) :: s₁.latest_ticks).lookup tok = none
          have hbeq : (tok == t') = false := by
            simp [Ne.symm htok]
          simp only [List.lookup, hbeq]
          exact hside.2

theorem getStockData_noTick (b : Broker) (now : ℚ) (tok : ℕ)
    (hb : ∀ t msg, b.histData t = .error msg → matchesAuthSig msg = false)
    (hseed : ∀ e y, b.tokenOf e y = .ok (some tok) → b.quoteOf e y = .ok none)
    (s : KiteState) (ex sym : String) (hk : s.kite = true)
    (hnt : s.latest_ticks.lookup tok = none)
    (hres : b.tokenOf ex sym = .ok (some tok)) :
    ∃ s₁ w, getStockData b now s ex sym
      = (s₁, .ok (some (formatStockData ex sym tok emptyTick w))) := by
  have hkne : ¬ (s.kite = false) := by simp [hk]
  obtain ⟨s₁, w, c, hfe, hk₁, hlt₁⟩ := fetch52_benign b now s tok (hb tok)
  have he1 : getStockData b now s ex sym = getStockDataTok b now s ex sym tok := by
    unfold getStockData
    rw [if_neg hkne, hres]
  have he2 : getStockDataTok b now s ex sym tok = getStockDataTick b s₁ ex sym tok w := by
    unfold getStockDataTok
    rw [hfe]
  have he3 : getStockDataTick b s₁ ex sym tok w
      = (s₁, .ok (some (formatStockData ex sym tok emptyTick w))) := by
    simp only [getStockDataTick]
    rw [hlt₁, hnt, hseed ex sym hres]
    rfl
  exact ⟨s₁, w, (he1.trans he2).trans he3⟩

theorem formatStockData_empty (ex sym : String) (tok : ℕ) (w : Range52) :
    (formatStockData ex sym tok emptyTick w).exchange = ex ∧
    (formatStockData ex sym tok emptyTick w).symbol = sym ∧
    (formatStockData ex sym tok emptyTick w).cmp = none ∧
    (formatStockData ex sym tok emptyTick w).dfl = none ∧
    (formatStockData ex sym tok emptyTick w).dfh = none ∧
    (formatStockData ex sym tok emptyTick w).dfdl = none ∧
    (formatStockData ex sym tok emptyTick w).dfdh = none ∧
    (formatStockData ex sym tok emptyTick w).bsr = none := by
  rcases w with ⟨wh, wl⟩
  rcases wh with _ | u <;> rcases wl with _ | l <;>
    simp [formatStockData, emptyTick]

/-- C9: an instrument of the watchlist whose symbol resolves to a token
but for which no tick was ever received, and whose on-demand quote
fallback yields nothing, still contributes a record to the broadcast
batch — with `cmp` and every derived field absent — provided no call in
the batch raises an authentication error and no other symbol seeds a tick
for that token. -/
theorem untickedInstrumentIncluded (b : Broker) (now : ℚ) (tok : ℕ)
    (hb : ∀ t msg, b.histData t = .error msg → matchesAuthSig msg = false)
    (hq : ∀ e y msg, b.quoteOf e y = .error msg → matchesAuthSig msg = false)
    (hseed : ∀ e y, b.tokenOf e y = .ok (some tok) → b.quoteOf e y = .ok none)
    (ex sym : String) (hres : b.tokenOf ex sym = .ok (some tok))
    (syms : List (String × String)) (s : KiteState)
    (hk : s.kite = true) (hnt : s.latest_ticks.lookup tok = none)
    (hmem : (ex, sym) ∈ syms) :
    ∃ d, d ∈ (buildUpdates b now s syms).2 ∧ d.exchange = ex ∧ d.symbol = sym ∧
      d.cmp = none ∧ d.dfl = none ∧ d.dfh = none ∧ d.dfdl = none ∧ d.dfdh = none ∧
      d.bsr = none := by
  induction syms generalizing s with
  | nil => cases hmem
  | cons hd rest ih =>
    rcases List.mem_cons.mp hmem with hEq | hMem
    · obtain ⟨s₁, w, hg⟩ := getStockData_noTick b now tok hb hseed s ex sym hk hnt hres
      obtain ⟨p1, p2, p3, p4, p5, p6, p7, p8⟩ := formatStockData_empty ex sym tok w
      refine ⟨formatStockData ex sym tok emptyTick w, ?_, p1, p2, p3, p4, p5, p6, p7, p8⟩
      rw [← hEq]
      show _ ∈ (buildUpdates b now s ((ex, sym) :: rest)).2
      simp only [buildUpdates]
      rw [hg]
      exact List.mem_cons_self _ _
    · have hpres := getStockData_preserves b now tok hb hq hseed s hd.1 hd.2 hk hnt
      rcases hg : getStockData b now s hd.1 hd.2 with ⟨s₁, r⟩
      rw [hg] at hpres
      obtain ⟨d, hdmem, hprops⟩ := ih s₁ hpres.1 hpres.2 hMem
      refine ⟨d, ?_, hprops⟩
      show d ∈ (buildUpdates b now s (hd :: rest)).2
      simp only [buildUpdates]
      rw [hg]
      rcases r with msg | o
      · exact hdmem
      · rcases o with _ | d'
        · exact hdmem
        · exact List.mem_cons_of_mem _ hdmem

/-- Concrete broker for the C9 witness: `NSE:FOO` resolves to token 5,
quotes yield nothing, historical data is an empty candle list. -/
def c9Broker : Broker :=
  ⟨fun e y => if e = "NSE" ∧ y = "FOO" then .ok (some 5) else .ok none,
   fun _ _ => .ok none,
   fun _ => .ok []⟩

/-- Authenticated state with empty caches for the C9 witness. -/
def c9State : KiteState := ⟨some "abc", true, true, true, ∅, [], [], []⟩

/-- C9 witness: a one-entry watchlist whose instrument never ticked. -/
theorem untickedInstrumentIncluded_w :
    ∃ d, d ∈ (buildUpdates c9Broker 0 c9State [("NSE", "FOO")]).2 ∧
      d.exchange = "NSE" ∧ d.symbol = "FOO" ∧ d.cmp = none ∧ d.dfl = none ∧
      d.dfh = none ∧ d.dfdl = none ∧ d.dfdh = none ∧ d.bsr = none :=
  untickedInstrumentIncluded c9Broker 0 5
    (fun t msg hcon => by simp [c9Broker] at hcon)
    (fun e y msg hcon => by simp [c9Broker] at hcon)
    (fun e y hcon => rfl)
    "NSE" "FOO" (by simp [c9Broker])
    [("NSE", "FOO")] c9State rfl rfl (List.mem_singleton_self _)

end TradingApp
